import Mathlib

/-!
Shallow embedding of the correspondence engine of the
`wa_network_request_compare` repository: `compare_network_requests.py`
(request matching, pair classification, aggregation, report rows) and
`get_file_names.py` (the identity-index merge).

The external similarity function of the fuzzywuzzy library is not part of
this repository; the code only looks at its integer values through the
strict comparison `> 90`, so every definition below is parameterized by a
`score : String → String → Nat` argument standing for that function.
-/

/-- One captured network request: one row of a capture CSV as read by
`csv.DictReader` (columns `url` and `status_code`). -/
structure Request where
  url : String
  status_code : String
deriving DecidableEq, Repr

/-- `find_different_requests` (compare_network_requests.py, lines 7-29):
a matched pair counts as an error when the two status codes differ and
neither of them is the string "302". -/
def find_different_requests (request_pair : Request × Request) : Bool :=
  let c_request := request_pair.1
  let a_request := request_pair.2
  let c_status := c_request.status_code
  let a_status := a_request.status_code
  (c_status != a_status) && (a_status != "302") && (c_status != "302")

/-- The loop-carried variables of the per-page matching loop
(compare_network_requests.py, lines 120-153): `c_url`, `a_url`,
`matched_requests`, `num_errors`, `missing_requests`. -/
structure CompareState where
  c_url : String
  a_url : String
  matched : List (Request × Request)
  num_errors : Nat
  missing : Nat
deriving DecidableEq, Repr

/-- Python's `str.lower()`, modelled character-wise (the tool's URLs are
ASCII, where the two agree). -/
def pyLower (s : String) : String := String.mk (s.data.map Char.toLower)

/-- Line 137: the current requests whose lower-cased URL scores strictly
above 90 against the lower-cased archived URL (the Python `list(filter(...))`
applied to `curr_requests_data`). -/
def matchCandidates (score : String → String → Nat) (a_url : String)
    (curr_requests_data : List Request) : List Request :=
  curr_requests_data.filter
    (fun c_request => score (pyLower a_url) (pyLower c_request.url) > 90)

/-- One iteration of `for a_row in arch_requests_data` (lines 130-153):
rebind `a_url`, filter the current requests, and either record the matched
pair (possibly bumping `num_errors`) or bump `missing_requests`. -/
def compareStep (score : String → String → Nat)
    (curr_requests_data : List Request)
    (s : CompareState) (a_row : Request) : CompareState :=
  let a_url := a_row.url
  match matchCandidates score a_url curr_requests_data with
  | [] =>
    { s with a_url := a_url, missing := s.missing + 1 }
  | c0 :: _ =>
    let s1 : CompareState :=
      { s with a_url := a_url, c_url := c0.url,
               matched := s.matched ++ [(c0, a_row)] }
    if find_different_requests (c0, a_row) then
      { s1 with num_errors := s1.num_errors + 1 }
    else s1

/-- The whole per-page matching loop, started from the index entry's
`c_url` / `a_url` with zeroed counters and an empty `matched_requests`
(lines 120-153). -/
def comparePage (score : String → String → Nat) (c_url a_url : String)
    (curr_requests_data arch_requests_data : List Request) : CompareState :=
  arch_requests_data.foldl (compareStep score curr_requests_data)
    ⟨c_url, a_url, [], 0, 0⟩

/-- C4 support: the classifier output spelled as a proposition. -/
theorem find_different_requests_eq (c_request a_request : Request) :
    find_different_requests (c_request, a_request) = true ↔
      (c_request.status_code ≠ a_request.status_code ∧
       a_request.status_code ≠ "302" ∧ c_request.status_code ≠ "302") := by
  simp [find_different_requests, Bool.and_eq_true, bne_iff_ne, and_assoc]

/-- One output row of the report CSV of compare_network_requests.py
(header at line 72, data rows at lines 193-196).  The `ic` field is the
Python float `requests_with_no_errors / num_requests_in_common`, modelled
as an exact rational. -/
structure ReportRow where
  current_url : String
  current_filename : String
  archive_url : String
  archive_filename : String
  num_current_requests : Nat
  num_archive_requests : Nat
  num_requests_in_common : Nat
  num_requests_with_errors : Nat
  ic : Rat
deriving DecidableEq, Repr

/-- One data row of the index file (lines 90-94): current URL, archive URL
and the two capture file names. -/
structure IndexEntry where
  c_url : String
  a_url : String
  c_file_name : String
  a_file_name : String
deriving DecidableEq, Repr

/-- The Python variables of `open_with_csv` that survive from one index
entry to the next and are read by the row write at lines 193-196 even when
the current entry's capture files could not be opened.  `none` models a
name that has never been bound (reading it raises `NameError`). -/
structure Env where
  curr_requests_data : Option (List Request)
  arch_requests_data : Option (List Request)
  num_requests_in_common : Option Nat
  num_errors : Option Nat
  ic : Option Rat
deriving DecidableEq, Repr

/-- The body of `for request_file in index_lst` (lines 90-196): open both
capture files (a missing file raises `FileNotFoundError`, caught at line
190 after which the variables of the previous iteration are still in
scope), run the matching loop, recompute `ic` only when
`num_requests_in_common != 0` (lines 173-182; the `else` branch merely
prints 0 and leaves the variable untouched), and write the report row at
lines 193-196 — the write sits outside the `try`, so it runs on every
iteration.  `fsCurr` / `fsArch` map a file name to its parsed rows, `none`
meaning the file is absent.  `Except.error ()` models an uncaught
`NameError` from reading a never-bound variable, which aborts the run. -/
def processEntry (score : String → String → Nat)
    (fsCurr fsArch : String → Option (List Request))
    (env : Env) (e : IndexEntry) : Except Unit (Env × ReportRow) :=
  match fsArch e.a_file_name with
  | none =>
    match env.curr_requests_data, env.arch_requests_data,
          env.num_requests_in_common, env.num_errors, env.ic with
    | some cd, some ad, some nc, some ne, some ic0 =>
      Except.ok (env,
        ⟨e.c_url, e.c_file_name, e.a_url, e.a_file_name,
         cd.length, ad.length, nc, ne, ic0⟩)
    | _, _, _, _, _ => Except.error ()
  | some arch_data =>
    match fsCurr e.c_file_name with
    | none =>
      let env1 : Env := { env with arch_requests_data := some arch_data }
      match env1.curr_requests_data, env1.num_requests_in_common,
            env1.num_errors, env1.ic with
      | some cd, some nc, some ne, some ic0 =>
        Except.ok (env1,
          ⟨e.c_url, e.c_file_name, e.a_url, e.a_file_name,
           cd.length, arch_data.length, nc, ne, ic0⟩)
      | _, _, _, _ => Except.error ()
    | some curr_data =>
      let st := comparePage score e.c_url e.a_url curr_data arch_data
      let nc := st.matched.length
      let icOpt : Option Rat :=
        if nc ≠ 0 then some (((nc : Rat) - (st.num_errors : Rat)) / (nc : Rat))
        else env.ic
      let env1 : Env :=
        ⟨some curr_data, some arch_data, some nc, some st.num_errors, icOpt⟩
      match icOpt with
      | some ic0 =>
        Except.ok (env1,
          ⟨st.c_url, e.c_file_name, st.a_url, e.a_file_name,
           curr_data.length, arch_data.length, nc, st.num_errors, ic0⟩)
      | none => Except.error ()

/-- The driver loop over the whole index (lines 90-196), threading the
persistent variables and collecting the report rows in order. -/
def runEntries (score : String → String → Nat)
    (fsCurr fsArch : String → Option (List Request)) :
    Env → List IndexEntry → Except Unit (List ReportRow)
  | _, [] => Except.ok []
  | env, e :: rest =>
    match processEntry score fsCurr fsArch env e with
    | Except.error u => Except.error u
    | Except.ok (env1, row) =>
      match runEntries score fsCurr fsArch env1 rest with
      | Except.error u => Except.error u
      | Except.ok rows => Except.ok (row :: rows)

/-- A whole run of `open_with_csv` of compare_network_requests.py: all
loop-carried variables start unbound. -/
def wholeRun (score : String → String → Nat)
    (fsCurr fsArch : String → Option (List Request))
    (entries : List IndexEntry) : Except Unit (List ReportRow) :=
  runEntries score fsCurr fsArch ⟨none, none, none, none, none⟩ entries

/-- One data row of the current index CSV of get_file_names.py (lines
41-42): `crow[:3] = [carchive_id, curl_id, curl]` and
`crow[-1] = cextraction_status`; `curl_id` passes through `int(...)` at
line 46, so it is held as an integer. -/
structure CRow where
  archive_id : String
  url_id : Int
  url : String
  extraction_status : String
deriving DecidableEq, Repr

/-- One data row of the archive index CSV of get_file_names.py (lines
43-44,47). -/
structure ARow where
  archive_id : String
  url_id : Int
  date : String
  url : String
  extraction_status : String
deriving DecidableEq, Repr

/-- One output row of get_file_names.py (line 60). -/
structure PairRow where
  current_url : String
  archive_url : String
  current_file_name : String
  archive_file_name : String
deriving DecidableEq, Repr

/-- Lines 57-60: the file names built from the ids and the emitted row. -/
def emitPair (crow : CRow) (arow : ARow) : PairRow :=
  ⟨crow.url, arow.url,
   crow.archive_id ++ "." ++ toString crow.url_id ++ ".csv",
   arow.archive_id ++ "." ++ toString arow.url_id ++ "." ++ arow.date ++ ".csv"⟩

/-- The merge loop of `open_with_csv` in get_file_names.py (lines 38-68):
`crow` / `arow` are the head rows already read, the lists hold the rows
still unread; `next` on an exhausted reader raises `StopIteration`, caught
at line 67, which ends the loop. -/
def mergeIndexes (crow : CRow) (arow : ARow)
    (crows : List CRow) (arows : List ARow) : List PairRow :=
  if crow.url_id > arow.url_id ∨ arow.extraction_status ≠ "Extraction successful" then
    match arows with
    | [] => []
    | a :: arest => mergeIndexes crow a crows arest
  else if crow.url_id < arow.url_id ∨ crow.extraction_status ≠ "Extraction successful" then
    match crows with
    | [] => []
    | c :: crest => mergeIndexes c arow crest arows
  else
    emitPair crow arow ::
      (match arows with
       | [] => []
       | a :: arest => mergeIndexes crow a crows arest)
termination_by crows.length + arows.length
decreasing_by all_goals (simp; try omega)

/-- C4: a matched pair is classified as an error exactly when the two
status-code texts differ and neither equals "302"; in particular current
code "302" against archive code "200" (and the converse) is never an
error, and current "404" against archive "200" always is. -/
theorem C4_classifier_redirect_tolerance :
    (∀ c_request a_request : Request,
       find_different_requests (c_request, a_request) = true ↔
         (c_request.status_code ≠ a_request.status_code ∧
          a_request.status_code ≠ "302" ∧ c_request.status_code ≠ "302")) ∧
    (∀ cu au : String,
       find_different_requests (⟨cu, "302"⟩, ⟨au, "200"⟩) = false) ∧
    (∀ cu au : String,
       find_different_requests (⟨cu, "200"⟩, ⟨au, "302"⟩) = false) ∧
    (∀ cu au : String,
       find_different_requests (⟨cu, "404"⟩, ⟨au, "200"⟩) = true) := by
  refine ⟨find_different_requests_eq, ?_, ?_, ?_⟩ <;>
    intro cu au <;> simp [find_different_requests]

/-- C8 fixture: a similarity function giving every pair the top score. -/
def scoreTop : String → String → Nat := fun _ _ => 100

/-- C8 fixture: a single current request. -/
def currC8 : List Request := [⟨"http://x.com/a.js", "200"⟩]

/-- C8 fixture: two distinct archived requests. -/
def archC8 : List Request := [⟨"http://x.com/a.js", "200"⟩, ⟨"http://x.com/b.js", "404"⟩]

/-- C8: matching is many-to-one from the current side: on this input the
two distinct archived records both select the single current record, both
pairs are reported as matched, and each is classified independently (the
second pair alone contributes an error). -/
theorem C8_many_to_one_duplication :
    (comparePage scoreTop "pc" "pa" currC8 archC8).matched =
      [(⟨"http://x.com/a.js", "200"⟩, ⟨"http://x.com/a.js", "200"⟩),
       (⟨"http://x.com/a.js", "200"⟩, ⟨"http://x.com/b.js", "404"⟩)] ∧
    (⟨"http://x.com/a.js", "200"⟩ : Request) ≠ ⟨"http://x.com/b.js", "404"⟩ ∧
    (comparePage scoreTop "pc" "pa" currC8 archC8).num_errors = 1 ∧
    (comparePage scoreTop "pc" "pa" currC8 archC8).missing = 0 := by
  decide

/-- C9: the Matcher is deterministic: two runs of the per-page matching
loop on equal current record sets and equal archived record sets (same
order) produce the same state, hence identical matched pairs and missing
counts. -/
theorem C9_matcher_deterministic (score : String → String → Nat)
    (c_url a_url : String) (curr1 curr2 arch1 arch2 : List Request)
    (h1 : curr1 = curr2) (h2 : arch1 = arch2) :
    comparePage score c_url a_url curr1 arch1 =
      comparePage score c_url a_url curr2 arch2 := by
  rw [h1, h2]

/-- C9 witness: the determinism theorem applied at a concrete input. -/
theorem C9_matcher_deterministic_witness :
    comparePage scoreTop "pc" "pa" currC8 archC8 =
      comparePage scoreTop "pc" "pa" currC8 archC8 :=
  C9_matcher_deterministic scoreTop "pc" "pa" currC8 currC8 archC8 archC8 rfl rfl

/-- The head of a filtered list is the first element satisfying the
predicate. -/
theorem head_filter_eq_find {α : Type} (p : α → Bool) (l : List α) :
    (l.filter p).head? = l.find? p := by
  induction l with
  | nil => rfl
  | cons x t ih =>
    by_cases h : p x
    · simp [List.filter_cons, List.find?_cons, h]
    · simp [List.filter_cons, List.find?_cons, h, ih]

/-- C2 (amended): for each archived record the loop body selects the FIRST
current record, in the given order, whose similarity score strictly
exceeds 90 — not necessarily a record attaining the highest score — and a
match is declared exactly when such a record exists; otherwise the record
is counted missing. -/
theorem C2_first_above_threshold (score : String → String → Nat)
    (curr_requests_data : List Request) (s : CompareState) (a_row : Request) :
    (compareStep score curr_requests_data s a_row).matched =
      s.matched ++
        ((curr_requests_data.find?
            (fun c_request => score (pyLower a_row.url) (pyLower c_request.url) > 90)).map
          (fun c0 => (c0, a_row))).toList ∧
    (compareStep score curr_requests_data s a_row).missing =
      (if (curr_requests_data.find?
            (fun c_request => score (pyLower a_row.url) (pyLower c_request.url) > 90)).isSome
       then s.missing else s.missing + 1) := by
  have hf : curr_requests_data.find?
      (fun c_request => score (pyLower a_row.url) (pyLower c_request.url) > 90) =
      (matchCandidates score a_row.url curr_requests_data).head? :=
    (head_filter_eq_find _ _).symm
  rw [hf]
  cases hm : matchCandidates score a_row.url curr_requests_data with
  | nil => simp [compareStep, hm]
  | cons c0 t =>
    simp only [compareStep, hm]
    constructor
    · split <;> simp
    · split <;> simp

/-- C2 counterexample fixture: a similarity function under which the
second current URL scores 95 and the first scores 91. -/
def scoreC2 : String → String → Nat := fun _ c => if c = "u2" then 95 else 91

/-- C2 counterexample fixture: two current requests. -/
def currC2 : List Request := [⟨"u1", "200"⟩, ⟨"u2", "200"⟩]

/-- C2 counterexample fixture: one archived request. -/
def archRecC2 : Request := ⟨"ua", "200"⟩

/-- C2 counterexample: the highest-scoring current record is `u2` (score
95), yet the matched pair recorded by the loop holds `u1` (score 91): the
code takes the first record above the threshold, not the best one. -/
theorem C2_counterexample_not_highest :
    (comparePage scoreC2 "pc" "pa" currC2 [archRecC2]).matched =
      [(⟨"u1", "200"⟩, archRecC2)] ∧
    scoreC2 "ua" "u2" = 95 ∧ scoreC2 "ua" "u1" = 91 ∧
    (⟨"u1", "200"⟩ : Request) ≠ ⟨"u2", "200"⟩ := by
  decide

/-- C5: the threshold is strictly greater-than.  If every current record
scores at most 90 against the archived URL (so the best score is ≤ 90,
e.g. exactly 90), the archived record is counted missing and nothing is
matched; if some current record scores 91, a pair is matched and the
missing count is unchanged. -/
theorem C5_threshold_strict_gt :
    (∀ (score : String → String → Nat) (curr_requests_data : List Request)
       (s : CompareState) (a_row : Request),
       (∀ c_request ∈ curr_requests_data,
          score (pyLower a_row.url) (pyLower c_request.url) ≤ 90) →
       (compareStep score curr_requests_data s a_row).matched = s.matched ∧
       (compareStep score curr_requests_data s a_row).missing = s.missing + 1) ∧
    (∀ (score : String → String → Nat) (curr_requests_data : List Request)
       (s : CompareState) (a_row : Request) (c_request : Request),
       c_request ∈ curr_requests_data →
       score (pyLower a_row.url) (pyLower c_request.url) = 91 →
       (compareStep score curr_requests_data s a_row).matched.length =
         s.matched.length + 1 ∧
       (compareStep score curr_requests_data s a_row).missing = s.missing) := by
  constructor
  · intro score curr s a_row hle
    have hm : matchCandidates score a_row.url curr = [] := by
      simp only [matchCandidates, List.filter_eq_nil_iff]
      intro c hc
      simp only [decide_eq_true_eq]
      exact fun hgt => absurd (hle c hc) (by omega)
    simp [compareStep, hm]
  · intro score curr s a_row c hc hsc
    have hmem : c ∈ matchCandidates score a_row.url curr := by
      simp only [matchCandidates, List.mem_filter]
      exact ⟨hc, by simp [hsc]⟩
    cases hm : matchCandidates score a_row.url curr with
    | nil => rw [hm] at hmem; exact absurd hmem (List.not_mem_nil c)
    | cons c0 t =>
      simp only [compareStep, hm]
      constructor
      · split <;> simp
      · split <;> simp

/-- C5 fixture: a similarity function that always scores exactly 90. -/
def scoreNinety : String → String → Nat := fun _ _ => 90

/-- C5 fixture: a similarity function that always scores exactly 91. -/
def scoreNinetyOne : String → String → Nat := fun _ _ => 91

/-- C5 witness: the threshold theorem applied at score 90 (missing) and at
score 91 (matched) over the same single-record current set. -/
theorem C5_threshold_strict_gt_witness :
    (compareStep scoreNinety currC8 ⟨"pc", "pa", [], 0, 0⟩ ⟨"au", "200"⟩).matched = [] ∧
    (compareStep scoreNinety currC8 ⟨"pc", "pa", [], 0, 0⟩ ⟨"au", "200"⟩).missing = 1 ∧
    (compareStep scoreNinetyOne currC8 ⟨"pc", "pa", [], 0, 0⟩ ⟨"au", "200"⟩).matched.length = 1 ∧
    (compareStep scoreNinetyOne currC8 ⟨"pc", "pa", [], 0, 0⟩ ⟨"au", "200"⟩).missing = 0 := by
  have h1 := C5_threshold_strict_gt.1 scoreNinety currC8
    ⟨"pc", "pa", [], 0, 0⟩ ⟨"au", "200"⟩ (by decide)
  have h2 := C5_threshold_strict_gt.2 scoreNinetyOne currC8
    ⟨"pc", "pa", [], 0, 0⟩ ⟨"au", "200"⟩ ⟨"http://x.com/a.js", "200"⟩
    (by decide) (by decide)
  exact ⟨h1.1, h1.2, h2.1, h2.2⟩

/-- Per-iteration accounting of the matching loop: each archived record
lands in exactly one of matched / missing, and the error count can only
grow together with the matched list. -/
theorem compareStep_counts (score : String → String → Nat)
    (curr_requests_data : List Request) (s : CompareState) (a_row : Request) :
    (compareStep score curr_requests_data s a_row).matched.length +
        (compareStep score curr_requests_data s a_row).missing =
      s.matched.length + s.missing + 1 ∧
    (s.num_errors ≤ s.matched.length →
      (compareStep score curr_requests_data s a_row).num_errors ≤
        (compareStep score curr_requests_data s a_row).matched.length) := by
  cases hm : matchCandidates score a_row.url curr_requests_data with
  | nil => simp [compareStep, hm]; omega
  | cons c0 t =>
    simp only [compareStep, hm]
    constructor
    · split <;> simp <;> omega
    · intro h; split <;> simp <;> omega

/-- The loop accounting extended over the whole archived record set. -/
theorem foldl_compareStep_counts (score : String → String → Nat)
    (curr_requests_data arch_requests_data : List Request) :
    ∀ s : CompareState,
    ((arch_requests_data.foldl (compareStep score curr_requests_data) s).matched.length +
        (arch_requests_data.foldl (compareStep score curr_requests_data) s).missing =
      s.matched.length + s.missing + arch_requests_data.length) ∧
    (s.num_errors ≤ s.matched.length →
      (arch_requests_data.foldl (compareStep score curr_requests_data) s).num_errors ≤
        (arch_requests_data.foldl (compareStep score curr_requests_data) s).matched.length) := by
  induction arch_requests_data with
  | nil => intro s; simp
  | cons a t ih =>
    intro s
    rw [List.foldl_cons]
    have hstep := compareStep_counts score curr_requests_data s a
    have hrec := ih (compareStep score curr_requests_data s a)
    constructor
    · rw [hrec.1]; simp only [List.length_cons]; omega
    · intro h; exact hrec.2 (hstep.2 h)

/-- C7: for every per-page comparison, the error count never exceeds the
matched count, the matched count never exceeds the archived total, and
the missing count is the archived total minus the matched count. -/
theorem C7_count_invariants (score : String → String → Nat)
    (c_url a_url : String)
    (curr_requests_data arch_requests_data : List Request) :
    (comparePage score c_url a_url curr_requests_data arch_requests_data).num_errors ≤
      (comparePage score c_url a_url curr_requests_data arch_requests_data).matched.length ∧
    (comparePage score c_url a_url curr_requests_data arch_requests_data).matched.length ≤
      arch_requests_data.length ∧
    (comparePage score c_url a_url curr_requests_data arch_requests_data).missing =
      arch_requests_data.length -
        (comparePage score c_url a_url curr_requests_data arch_requests_data).matched.length := by
  have h := foldl_compareStep_counts score curr_requests_data arch_requests_data
    ⟨c_url, a_url, [], 0, 0⟩
  have h1 := h.1
  have h2 := h.2 (by simp)
  simp only [List.length_nil] at h1
  unfold comparePage
  exact ⟨h2, by omega, by omega⟩

/-- Each loop iteration rebinds `a_url` to the archived record's URL, in
every branch. -/
theorem compareStep_a_url (score : String → String → Nat)
    (curr_requests_data : List Request) (s : CompareState) (a_row : Request) :
    (compareStep score curr_requests_data s a_row).a_url = a_row.url := by
  cases hm : matchCandidates score a_row.url curr_requests_data with
  | nil => simp [compareStep, hm]
  | cons c0 t => simp only [compareStep, hm]; split <;> rfl

/-- After the loop, `a_url` holds the last archived record's URL (or its
initial value when there was no archived record). -/
theorem foldl_a_url (score : String → String → Nat)
    (curr_requests_data arch_requests_data : List Request) :
    ∀ s : CompareState,
    (arch_requests_data.foldl (compareStep score curr_requests_data) s).a_url =
      ((arch_requests_data.getLast?).map Request.url).getD s.a_url := by
  induction arch_requests_data with
  | nil => intro s; simp
  | cons a t ih =>
    intro s
    rw [List.foldl_cons, ih]
    cases t with
    | nil => simp [compareStep_a_url]
    | cons b u =>
      have hx := (List.getLast?_isSome).2 (by simp : (b :: u) ≠ [])
      obtain ⟨x, hx⟩ := Option.isSome_iff_exists.1 hx
      simp [List.getLast?_cons_cons, hx]

/-- The matching-loop body either leaves `matched` and `c_url` alone or
appends one pair and rebinds `c_url` to its current side's URL. -/
theorem compareStep_matched_c_url (score : String → String → Nat)
    (curr_requests_data : List Request) (s : CompareState) (a_row : Request) :
    ((compareStep score curr_requests_data s a_row).matched = s.matched ∧
     (compareStep score curr_requests_data s a_row).c_url = s.c_url) ∨
    (∃ c0, (compareStep score curr_requests_data s a_row).matched =
             s.matched ++ [(c0, a_row)] ∧
           (compareStep score curr_requests_data s a_row).c_url = c0.url) := by
  cases hm : matchCandidates score a_row.url curr_requests_data with
  | nil => left; simp [compareStep, hm]
  | cons c0 t =>
    right
    refine ⟨c0, ?_⟩
    simp only [compareStep, hm]
    split <;> exact ⟨rfl, rfl⟩

/-- Each loop iteration preserves the link between `c_url` and the last
matched pair: `c_url` is rebound exactly when a pair is appended. -/
theorem compareStep_c_url_last (score : String → String → Nat)
    (curr_requests_data : List Request) (s : CompareState) (a_row : Request)
    (h : ∀ p, s.matched.getLast? = some p → s.c_url = p.1.url) :
    ∀ p, (compareStep score curr_requests_data s a_row).matched.getLast? = some p →
      (compareStep score curr_requests_data s a_row).c_url = p.1.url := by
  intro p hp
  rcases compareStep_matched_c_url score curr_requests_data s a_row with
    ⟨h1, h2⟩ | ⟨c0, h1, h2⟩
  · rw [h1] at hp; rw [h2]; exact h p hp
  · rw [h1, List.getLast?_concat] at hp
    injection hp with hpe
    subst hpe
    rw [h2]

/-- After the loop, `c_url` holds the URL of the current record selected
for the last matched archived record, whenever anything was matched. -/
theorem foldl_c_url (score : String → String → Nat)
    (curr_requests_data arch_requests_data : List Request) :
    ∀ s : CompareState,
    (∀ p, s.matched.getLast? = some p → s.c_url = p.1.url) →
    ∀ p, (arch_requests_data.foldl (compareStep score curr_requests_data) s).matched.getLast? = some p →
      (arch_requests_data.foldl (compareStep score curr_requests_data) s).c_url = p.1.url := by
  induction arch_requests_data with
  | nil => intro s h; simpa using h
  | cons a t ih =>
    intro s h
    rw [List.foldl_cons]
    exact ih _ (compareStep_c_url_last score curr_requests_data s a h)

/-- A page with a matched pair has at least one archived record. -/
theorem matched_nonempty_arch (score : String → String → Nat)
    (c_url a_url : String)
    (curr_requests_data arch_requests_data : List Request)
    (h : (comparePage score c_url a_url curr_requests_data arch_requests_data).matched ≠ []) :
    arch_requests_data ≠ [] := by
  intro harch
  subst harch
  simp [comparePage] at h

/-- C10: when a page pair had at least one matched archived record, the
report row written at lines 193-196 carries, in its first column, the URL
of the current record selected for the LAST matched archived record, and
in its third column the URL of the last archived record iterated — the
per-record loop has overwritten the `c_url` / `a_url` variables that held
the page-level URLs read from the index entry. -/
theorem C10_row_urls_from_loop (score : String → String → Nat)
    (fsCurr fsArch : String → Option (List Request)) (env : Env)
    (e : IndexEntry) (curr_data arch_data : List Request)
    (hC : fsCurr e.c_file_name = some curr_data)
    (hA : fsArch e.a_file_name = some arch_data)
    (hm : (comparePage score e.c_url e.a_url curr_data arch_data).matched ≠ []) :
    ∃ env1 row p a_last,
      processEntry score fsCurr fsArch env e = Except.ok (env1, row) ∧
      (comparePage score e.c_url e.a_url curr_data arch_data).matched.getLast? =
        some p ∧
      row.current_url = p.1.url ∧
      arch_data.getLast? = some a_last ∧
      row.archive_url = a_last.url := by
  have hnc : (comparePage score e.c_url e.a_url curr_data arch_data).matched.length ≠ 0 := by
    simpa [List.length_eq_zero] using hm
  obtain ⟨p, hp⟩ := Option.isSome_iff_exists.1 ((List.getLast?_isSome).2 hm)
  have harch : arch_data ≠ [] :=
    matched_nonempty_arch score e.c_url e.a_url curr_data arch_data hm
  obtain ⟨al, hal⟩ := Option.isSome_iff_exists.1 ((List.getLast?_isSome).2 harch)
  have hcu : (comparePage score e.c_url e.a_url curr_data arch_data).c_url = p.1.url := by
    unfold comparePage at hp ⊢
    exact foldl_c_url score curr_data arch_data ⟨e.c_url, e.a_url, [], 0, 0⟩ (by simp) p hp
  have hau : (comparePage score e.c_url e.a_url curr_data arch_data).a_url = al.url := by
    unfold comparePage
    rw [foldl_a_url score curr_data arch_data ⟨e.c_url, e.a_url, [], 0, 0⟩, hal]
    rfl
  refine
    ⟨⟨some curr_data, some arch_data,
      some (comparePage score e.c_url e.a_url curr_data arch_data).matched.length,
      some (comparePage score e.c_url e.a_url curr_data arch_data).num_errors,
      some ((((comparePage score e.c_url e.a_url curr_data arch_data).matched.length : Rat) -
             ((comparePage score e.c_url e.a_url curr_data arch_data).num_errors : Rat)) /
            ((comparePage score e.c_url e.a_url curr_data arch_data).matched.length : Rat))⟩,
     ⟨(comparePage score e.c_url e.a_url curr_data arch_data).c_url, e.c_file_name,
      (comparePage score e.c_url e.a_url curr_data arch_data).a_url, e.a_file_name,
      curr_data.length, arch_data.length,
      (comparePage score e.c_url e.a_url curr_data arch_data).matched.length,
      (comparePage score e.c_url e.a_url curr_data arch_data).num_errors,
      (((comparePage score e.c_url e.a_url curr_data arch_data).matched.length : Rat) -
       ((comparePage score e.c_url e.a_url curr_data arch_data).num_errors : Rat)) /
        ((comparePage score e.c_url e.a_url curr_data arch_data).matched.length : Rat)⟩,
     p, al, ?_, hp, hcu, hal, hau⟩
  simp only [processEntry, hA, hC]
  rw [if_pos hnc]

/-- C10 witness fixture: one current request. -/
def currC10 : List Request := [⟨"http://cur/a", "200"⟩]

/-- C10 witness fixture: two archived requests. -/
def archC10 : List Request := [⟨"http://arch/a", "200"⟩, ⟨"http://arch/b", "200"⟩]

/-- C10 witness fixture: the index entry with its page-level URLs. -/
def entryC10 : IndexEntry := ⟨"http://page/cur", "http://page/arch", "c.csv", "a.csv"⟩

/-- C10 witness fixture: the current capture directory. -/
def fsCurrC10 : String → Option (List Request) :=
  fun n => if n = "c.csv" then some currC10 else none

/-- C10 witness fixture: the archive capture directory. -/
def fsArchC10 : String → Option (List Request) :=
  fun n => if n = "a.csv" then some archC10 else none

/-- C10 witness: the overwritten-URL theorem applied at a concrete index
entry with two matched archived records. -/
theorem C10_row_urls_from_loop_witness :
    ∃ env1 row p a_last,
      processEntry scoreTop fsCurrC10 fsArchC10 ⟨none, none, none, none, none⟩
          entryC10 = Except.ok (env1, row) ∧
      (comparePage scoreTop entryC10.c_url entryC10.a_url currC10 archC10).matched.getLast? =
        some p ∧
      row.current_url = p.1.url ∧
      archC10.getLast? = some a_last ∧
      row.archive_url = a_last.url :=
  C10_row_urls_from_loop scoreTop fsCurrC10 fsArchC10 ⟨none, none, none, none, none⟩
    entryC10 currC10 archC10 (by decide) (by decide) (by decide)

/-- C1 fixture: a similarity function scoring 0 against the archived URL
"zzz" and 100 against everything else. -/
def scoreC1 : String → String → Nat := fun a _ => if a = "zzz" then 0 else 100

/-- C1 fixture: the request shared by the first page pair. -/
def reqC1 : Request := ⟨"http://x.com/a.js", "200"⟩

/-- C1 fixture: first index entry (one matched record, no errors). -/
def entryC1a : IndexEntry := ⟨"http://page/cur", "http://page/arch", "c1.csv", "a1.csv"⟩

/-- C1 fixture: second index entry (zero matched records). -/
def entryC1b : IndexEntry := ⟨"http://page/cur2", "http://page/arch2", "c2.csv", "a2.csv"⟩

/-- C1 fixture: the current capture directory. -/
def fsCurrC1 : String → Option (List Request) :=
  fun n => if n = "c1.csv" then some [reqC1]
           else if n = "c2.csv" then some [reqC1] else none

/-- C1 fixture: the archive capture directory; the second page's archived
record has URL "zzz", which matches nothing. -/
def fsArchC1 : String → Option (List Request) :=
  fun n => if n = "a1.csv" then some [reqC1]
           else if n = "a2.csv" then some [⟨"zzz", "200"⟩] else none

/-- C1 at the failing input: the first page pair matches one record with
no errors, so its row carries correspondence 1; the second page pair
matches nothing, yet its emitted row carries the STALE value 1 — not the
0 that lines 181-182 print — because the `else` branch never assigns
`ic`. -/
theorem C1_stale_ic_on_zero_matches :
    ∃ row1 row2,
      wholeRun scoreC1 fsCurrC1 fsArchC1 [entryC1a, entryC1b] =
        Except.ok [row1, row2] ∧
      row1.num_requests_in_common = 1 ∧ row1.ic = 1 ∧
      row2.num_requests_in_common = 0 ∧ row2.ic = 1 := by
  refine ⟨_, _, rfl, rfl, ?_, rfl, ?_⟩ <;>
  · have h1 : (comparePage scoreC1 entryC1a.c_url entryC1a.a_url
        [reqC1] [reqC1]).matched.length = 1 := by decide
    have h2 : (comparePage scoreC1 entryC1a.c_url entryC1a.a_url
        [reqC1] [reqC1]).num_errors = 0 := by decide
    rw [h1, h2]
    norm_num

/-- C3 fixture: a request for the readable page pair. -/
def reqC3 : Request := ⟨"http://y.com/b.js", "200"⟩

/-- C3 fixture: a readable index entry. -/
def entryC3good : IndexEntry := ⟨"pc1", "pa1", "cg.csv", "ag.csv"⟩

/-- C3 fixture: an index entry whose archive capture file is absent. -/
def entryC3bad : IndexEntry := ⟨"pc2", "pa2", "cb.csv", "missing.csv"⟩

/-- C3 fixture: the current capture directory. -/
def fsCurrC3 : String → Option (List Request) :=
  fun n => if n = "cg.csv" then some [reqC3] else none

/-- C3 fixture: the archive capture directory ("missing.csv" is absent). -/
def fsArchC3 : String → Option (List Request) :=
  fun n => if n = "ag.csv" then some [reqC3] else none

/-- C3 at the failing input: when the FIRST index entry's capture file is
unreadable the run aborts with a `NameError` (the row write at lines
193-196 reads never-bound variables), and when a LATER entry is
unreadable a report row IS written for it — reusing the previous entry's
counts (note the stale `num_requests_in_common = 1` in the second row,
for a pair whose files were never read). -/
theorem C3_row_written_even_for_unreadable :
    wholeRun scoreTop fsCurrC3 fsArchC3 [entryC3bad] = Except.error () ∧
    (wholeRun scoreTop fsCurrC3 fsArchC3 [entryC3good, entryC3bad]).map
        (fun rows => rows.map
          (fun row => (row.current_url, row.archive_url,
                       row.num_requests_in_common))) =
      Except.ok [("http://y.com/b.js", "http://y.com/b.js", 1),
                 ("pc2", "pa2", 1)] := by
  constructor
  · rfl
  · rfl

/-- C6: the identity-index merge emits a pair only from a current row and
an archive row whose url ids are equal and whose extraction-status fields
both equal the literal "Extraction successful"; rows failing either test
are never part of an emitted pair. -/
theorem C6_pairs_only_on_matching_success (crow : CRow) (arow : ARow)
    (crows : List CRow) (arows : List ARow) :
    ∀ out ∈ mergeIndexes crow arow crows arows,
      ∃ c a, c ∈ crow :: crows ∧ a ∈ arow :: arows ∧
        c.url_id = a.url_id ∧
        c.extraction_status = "Extraction successful" ∧
        a.extraction_status = "Extraction successful" ∧
        out = emitPair c a := by
  induction crow, arow, crows, arows using mergeIndexes.induct with
  | case1 crow arow crows h =>
    intro out hout
    rw [mergeIndexes.eq_def] at hout
    rw [if_pos h] at hout
    exact absurd hout (List.not_mem_nil out)
  | case2 crow arow crows h a arest ih =>
    intro out hout
    rw [mergeIndexes.eq_def] at hout
    rw [if_pos h] at hout
    obtain ⟨c, a1, hc, ha, hid, hcs, has, hout⟩ := ih out hout
    exact ⟨c, a1, hc, List.mem_cons_of_mem arow ha, hid, hcs, has, hout⟩
  | case3 crow arow arows h1 h2 =>
    intro out hout
    rw [mergeIndexes.eq_def] at hout
    rw [if_neg h1, if_pos h2] at hout
    exact absurd hout (List.not_mem_nil out)
  | case4 crow arow arows h1 h2 c crest ih =>
    intro out hout
    rw [mergeIndexes.eq_def] at hout
    rw [if_neg h1, if_pos h2] at hout
    obtain ⟨c1, a1, hc, ha, hid, hcs, has, hout⟩ := ih out hout
    exact ⟨c1, a1, List.mem_cons_of_mem crow hc, ha, hid, hcs, has, hout⟩
  | case5 crow arow crows arows h1 h2 ih =>
    intro out hout
    rw [mergeIndexes.eq_def] at hout
    rw [if_neg h1, if_neg h2] at hout
    push_neg at h1 h2
    have hid : crow.url_id = arow.url_id := by omega
    rcases List.mem_cons.1 hout with hhead | htail
    · exact ⟨crow, arow, List.mem_cons_self crow crows,
        List.mem_cons_self arow arows, hid, h2.2, h1.2, hhead⟩
    · cases arows with
      | nil => exact absurd htail (List.not_mem_nil out)
      | cons a arest =>
        obtain ⟨c1, a1, hc, ha, hid1, hcs, has, hout1⟩ := ih out htail
        exact ⟨c1, a1, hc, List.mem_cons_of_mem arow ha, hid1, hcs, has, hout1⟩
  
/-- C6 witness fixture: a current index row with a successful status. -/
def crowC6 : CRow := ⟨"81", 1, "http://cur/page", "Extraction successful"⟩

/-- C6 witness fixture: an archive index row with a successful status and
the same url id. -/
def arowC6 : ARow := ⟨"81", 1, "20190101", "http://arch/page", "Extraction successful"⟩

/-- C6 witness: the merge theorem applied to the pair emitted from a
concrete one-row run. -/
theorem C6_pairs_only_on_matching_success_witness :
    ∃ c a, c ∈ [crowC6] ∧ a ∈ [arowC6] ∧ c.url_id = a.url_id ∧
      c.extraction_status = "Extraction successful" ∧
      a.extraction_status = "Extraction successful" ∧
      emitPair crowC6 arowC6 = emitPair c a :=
  C6_pairs_only_on_matching_success crowC6 arowC6 [] [] (emitPair crowC6 arowC6)
    (by simp [mergeIndexes, crowC6, arowC6])
